import Mathlib

/-!
Verification of the NusaParagraphEmot corpus adapter
(`seacrowd/sea_datasets/nusaparagraph_emot/nusaparagraph_emot.py`).

Shallow embedding conventions: a CSV split file is modelled as the list of
its parsed rows (columns `id`, `text`, `label`); the external download
manager is modelled as the identity on resolved URLs (a fetched local path
is identified with its URL); Python exceptions are modelled as `Except`
errors.
-/

/-- A parsed CSV row.  Every split file consumed by the adapter has at
least the columns `id` (integer), `text` and `label`. -/
structure CsvRow where
  id : Int
  text : String
  label : String
deriving DecidableEq, Repr

/-- An emitted example record (`ex` in `_generate_examples`, line 169). -/
structure Record where
  id : String
  text : String
  label : String
deriving DecidableEq, Repr

/-- The fields of `SEACrowdConfig` that this adapter sets and reads. -/
structure SEACrowdConfig where
  name : String
  version : String
  description : String
  schema : String
  subset_id : String
deriving DecidableEq, Repr

/-- `LANGUAGES_MAP` (lines 68-79): the fixed 10-language table, in
insertion order, which is the registry iteration order. -/
def LANGUAGES_MAP : List (String × String) :=
  [("btk", "batak"), ("bew", "betawi"), ("bug", "buginese"),
   ("jav", "javanese"), ("mad", "madurese"), ("mak", "makassarese"),
   ("min", "minangkabau"), ("mui", "musi"), ("rej", "rejang"),
   ("sun", "sundanese")]

/-- The language codes of `LANGUAGES_MAP`, in registry order. -/
def lang_codes : List String := LANGUAGES_MAP.map Prod.fst

def _SOURCE_VERSION : String := "1.0.0"

def _SEACROWD_VERSION : String := "1.0.0"

/-- The configuration object built in the two non-error branches of
`seacrowd_config_constructor` (lines 47-67). -/
def config_of (lang schema version : String) : SEACrowdConfig :=
  if lang = "" then
    { name := "nusaparagraph_emot_" ++ schema,
      version := version,
      description :=
        "nusaparagraph_emot with " ++ schema ++ " schema for all 10 languages",
      schema := schema,
      subset_id := "nusaparagraph_emot" }
  else
    { name := "nusaparagraph_emot_" ++ lang ++ "_" ++ schema,
      version := version,
      description :=
        "nusaparagraph_emot with " ++ schema ++ " schema for " ++ lang ++ " language",
      schema := schema,
      subset_id := "nusaparagraph_emot" }

/-- `seacrowd_config_constructor` (lines 43-67).  The `ValueError` raised
for an unrecognized schema is modelled as `Except.error` carrying the
formatted message. -/
def seacrowd_config_constructor (lang schema version : String) :
    Except String SEACrowdConfig :=
  if schema ≠ "source" ∧ schema ≠ "seacrowd_text" then
    .error ("Invalid schema: " ++ schema)
  else
    .ok (config_of lang schema version)

/-- `NusaParagraphEmot.BUILDER_CONFIGS` (lines 82-92): 10 per-language
source configs, 10 per-language seacrowd_text configs, then the two
aggregate configs. -/
def BUILDER_CONFIGS : List (Except String SEACrowdConfig) :=
  (LANGUAGES_MAP.map fun p =>
      seacrowd_config_constructor p.1 "source" _SOURCE_VERSION) ++
  (LANGUAGES_MAP.map fun p =>
      seacrowd_config_constructor p.1 "seacrowd_text" _SEACROWD_VERSION) ++
  [seacrowd_config_constructor "" "source" _SOURCE_VERSION,
   seacrowd_config_constructor "" "seacrowd_text" _SEACROWD_VERSION]

/-- The names of the successfully constructed registered configurations. -/
def config_names : List String :=
  BUILDER_CONFIGS.filterMap fun e =>
    match e with
    | .ok c => some c.name
    | .error _ => none

/-- `NusaParagraphEmot.DEFAULT_CONFIG_NAME` (line 93). -/
def DEFAULT_CONFIG_NAME : String := "nusaparagraph_emot_ind_source"

/-- The 7-element label list passed to `schemas.text_features` in `_info`
(lines 102-105). -/
def emotion_labels : List String :=
  ["fear", "disgusted", "sad", "happy", "angry", "surprise", "shame"]

/-- `_URLS["train"]` (lines 35-42). -/
def _URLS_train : String :=
  "https://raw.githubusercontent.com/IndoNLP/nusa-writes/main/data/nusa_alinea-emot-{lang}-train.csv"

/-- `_URLS["validation"]` (lines 35-42). -/
def _URLS_validation : String :=
  "https://raw.githubusercontent.com/IndoNLP/nusa-writes/main/data/nusa_alinea-emot-{lang}-valid.csv"

/-- `_URLS["test"]` (lines 35-42). -/
def _URLS_test : String :=
  "https://raw.githubusercontent.com/IndoNLP/nusa-writes/main/data/nusa_alinea-emot-{lang}-test.csv"

/-- Replace every occurrence of `pat` in a character list by `rep`,
left to right without overlap, using the list length as structural fuel
so the kernel can evaluate it. -/
def replace_fuel (pat rep : List Char) : Nat → List Char → List Char
  | _, [] => []
  | 0, l => l
  | fuel + 1, c :: cs =>
    if pat.isPrefixOf (c :: cs) then
      rep ++ replace_fuel pat rep fuel (cs.drop (pat.length - 1))
    else
      c :: replace_fuel pat rep fuel cs

/-- Python `template.format(lang=lang)` on the URL templates above:
substitute the placeholder spelled left brace, `lang`, right brace. -/
def format_lang (template lang : String) : String :=
  ⟨replace_fuel ['{', 'l', 'a', 'n', 'g', '}'] lang.data
    template.data.length template.data⟩

/-- Python `s.split(sep)` on a character list: splitting the empty string
yields one empty field, and adjacent separators yield empty fields. -/
def py_split (sep : Char) : List Char → List (List Char)
  | [] => [[]]
  | c :: cs =>
    let r := py_split sep cs
    if c = sep then
      [] :: r
    else
      match r with
      | [] => [[c]]
      | g :: gs => (c :: g) :: gs

/-- Python `s.split(sep)` on a string. -/
def py_split_str (sep : Char) (s : String) : List String :=
  (py_split sep s.data).map String.mk

/-- Errors the embedded adapter can signal: the `ValueError` of
`_generate_examples` line 158, the `TypeError` Python would raise when the
filepath argument's shape does not match the branch taken, and the
`IndexError` of `name.split('_')[2]` on a too-short name (line 132). -/
inductive GenError where
  | invalidConfig (name : String)
  | typeMismatch
  | indexOutOfRange
deriving DecidableEq, Repr

/-- The `filepath` argument of `_generate_examples`: one parsed file
(single-language case) or a list of parsed files (aggregate case). -/
inductive FileInput where
  | single (rows : List CsvRow)
  | multiple (files : List (List CsvRow))
deriving DecidableEq, Repr

/-- The shared emission loop (lines 168-170): each dataframe row yields
key `row.id` and record `{id: str(row.id), text: row.text, label: row.label}`. -/
def emit_rows (rows : List CsvRow) : List (Int × Record) :=
  rows.map fun r =>
    (r.id, { id := toString r.id, text := r.text, label := r.label })

/-- The aggregate-case dataframe (lines 160-165): concatenate all files in
the given order with a fresh 0-based range index, drop the original `id`
column and rename the fresh index to `id`. -/
def aggregate_df (files : List (List CsvRow)) : List CsvRow :=
  (files.flatten).enum.map fun p =>
    { id := (p.1 : Int), text := p.2.text, label := p.2.label }

/-- `NusaParagraphEmot._generate_examples` (lines 156-170).  In the
single-language branch the source computes `pd.read_csv(filepath).reset_index()`,
which only inserts an unused `index` column: the original `id` column is
kept, so `row.id` is the CSV file's own `id` value.  Only the aggregate
branch drops `id` and renames the fresh index to `id`. -/
def generate_examples (config : SEACrowdConfig) (filepath : FileInput) :
    Except GenError (List (Int × Record)) :=
  if config.schema ≠ "source" ∧ config.schema ≠ "seacrowd_text" then
    .error (.invalidConfig config.name)
  else if config.name = "nusaparagraph_emot_source" ∨
      config.name = "nusaparagraph_emot_seacrowd_text" then
    match filepath with
    | .multiple files => .ok (emit_rows (aggregate_df files))
    | .single _ => .error .typeMismatch
  else
    match filepath with
    | .single rows => .ok (emit_rows rows)
    | .multiple _ => .error .typeMismatch

/-- The `filepath` value a `SplitGenerator` carries: a single resolved
path or a list of resolved paths. -/
inductive PathsArg where
  | one (path : String)
  | many (paths : List String)
deriving DecidableEq, Repr

/-- One `datasets.SplitGenerator` (lines 142-155): split name plus the
`filepath` passed through `gen_kwargs`. -/
structure SplitGenerator where
  split : String
  filepath : PathsArg
deriving DecidableEq, Repr

/-- `NusaParagraphEmot._split_generators` (lines 113-155).  The download
manager is modelled as the identity: `download_and_extract(url)` returns
the URL itself as the local path.  The aggregate branch fetches one URL
per language of `LANGUAGES_MAP` per split; otherwise the language is
`name.split('_')[2]`, which raises `IndexError` on a too-short name. -/
def split_generators (name : String) :
    Except GenError (List SplitGenerator) :=
  if name = "nusaparagraph_emot_source" ∨
      name = "nusaparagraph_emot_seacrowd_text" then
    .ok [{ split := "train",
           filepath := .many (lang_codes.map (format_lang _URLS_train)) },
         { split := "validation",
           filepath := .many (lang_codes.map (format_lang _URLS_validation)) },
         { split := "test",
           filepath := .many (lang_codes.map (format_lang _URLS_test)) }]
  else
    match (py_split_str '_' name).get? 2 with
    | some lang =>
        .ok [{ split := "train", filepath := .one (format_lang _URLS_train lang) },
             { split := "validation",
               filepath := .one (format_lang _URLS_validation lang) },
             { split := "test", filepath := .one (format_lang _URLS_test lang) }]
    | none => .error .indexOutOfRange

/-- The label column of the input, in emission order. -/
def input_labels : FileInput → List String
  | .single rows => rows.map CsvRow.label
  | .multiple files => (files.flatten).map CsvRow.label

deriving instance DecidableEq for Except

theorem emit_rows_fst (rows : List CsvRow) :
    (emit_rows rows).map Prod.fst = rows.map CsvRow.id := by
  simp only [emit_rows, List.map_map]; rfl

theorem emit_rows_label (rows : List CsvRow) :
    (emit_rows rows).map (fun p => p.2.label) = rows.map CsvRow.label := by
  simp only [emit_rows, List.map_map]; rfl

theorem enum_map_fst_comp {α β : Type} (l : List α) (f : Nat → β) :
    l.enum.map (fun p => f p.1) = (List.range l.length).map f := by
  conv_rhs => rw [← List.enum_map_fst l, List.map_map]
  rfl

theorem enum_map_snd_comp {α β : Type} (l : List α) (f : α → β) :
    l.enum.map (fun p => f p.2) = l.map f := by
  conv_rhs => rw [← List.enum_map_snd l, List.map_map]
  rfl

/-- C4 (confirmed): the registry enumerates exactly 22 configurations, one
per (language, schema) pair for the 10 languages and 2 schemas plus the 2
aggregate configurations, with pairwise distinct names of the form
`nusaparagraph_emot_<lang>_<schema>` (or `nusaparagraph_emot_<schema>` for
the aggregate case). -/
theorem claim_C4 :
    config_names =
      ["nusaparagraph_emot_btk_source", "nusaparagraph_emot_bew_source",
       "nusaparagraph_emot_bug_source", "nusaparagraph_emot_jav_source",
       "nusaparagraph_emot_mad_source", "nusaparagraph_emot_mak_source",
       "nusaparagraph_emot_min_source", "nusaparagraph_emot_mui_source",
       "nusaparagraph_emot_rej_source", "nusaparagraph_emot_sun_source",
       "nusaparagraph_emot_btk_seacrowd_text", "nusaparagraph_emot_bew_seacrowd_text",
       "nusaparagraph_emot_bug_seacrowd_text", "nusaparagraph_emot_jav_seacrowd_text",
       "nusaparagraph_emot_mad_seacrowd_text", "nusaparagraph_emot_mak_seacrowd_text",
       "nusaparagraph_emot_min_seacrowd_text", "nusaparagraph_emot_mui_seacrowd_text",
       "nusaparagraph_emot_rej_seacrowd_text", "nusaparagraph_emot_sun_seacrowd_text",
       "nusaparagraph_emot_source", "nusaparagraph_emot_seacrowd_text"] ∧
    config_names.Nodup ∧ config_names.length = 22 ∧
    BUILDER_CONFIGS.length = 22 := by
  refine ⟨rfl, by decide, rfl, rfl⟩

/-- C9 (confirmed): the default configuration name embeds the language
code `ind`, which is not in the 10-language table, so the name matches
none of the 22 registered configuration names. -/
theorem claim_C9 :
    DEFAULT_CONFIG_NAME ∉ config_names ∧ "ind" ∉ lang_codes := by
  decide

/-- C5 (confirmed): constructing a configuration with a schema outside the
two recognized variants fails immediately with the invalid-schema
`ValueError`, and for either recognized schema the constructor returns a
configuration object without error. -/
theorem claim_C5 (lang schema version : String) :
    (schema ≠ "source" → schema ≠ "seacrowd_text" →
      seacrowd_config_constructor lang schema version =
        .error ("Invalid schema: " ++ schema)) ∧
    (schema = "source" ∨ schema = "seacrowd_text" →
      seacrowd_config_constructor lang schema version =
        .ok (config_of lang schema version)) := by
  constructor
  · intro h1 h2
    simp [seacrowd_config_constructor, h1, h2]
  · intro h
    rcases h with h | h <;> simp [seacrowd_config_constructor, h]

theorem claim_C5_witness :
    seacrowd_config_constructor "jav" "xml" "1.0.0" =
      .error ("Invalid schema: " ++ "xml") ∧
    seacrowd_config_constructor "jav" "source" "1.0.0" =
      .ok (config_of "jav" "source" "1.0.0") :=
  ⟨(claim_C5 "jav" "xml" "1.0.0").1 (by decide) (by decide),
   (claim_C5 "jav" "source" "1.0.0").2 (Or.inl rfl)⟩

/-- C1 counterexample: a single-language configuration (`jav`, source
schema) on a file whose `id` column is `[5, 9]` emits ids `5, 9` — the
CSV file's own ids — not the contiguous range `0..1` the claim requires. -/
theorem claim_C1_counterexample :
    generate_examples (config_of "jav" "source" "1.0.0")
        (.single [⟨5, "a", "happy"⟩, ⟨9, "b", "sad"⟩]) =
      .ok [(5, ⟨"5", "a", "happy"⟩), (9, ⟨"9", "b", "sad"⟩)] ∧
    [((5 : Int), (⟨"5", "a", "happy"⟩ : Record)),
        (9, ⟨"9", "b", "sad"⟩)].map Prod.fst ≠
      (List.range 2).map Int.ofNat :=
  ⟨rfl, by decide⟩

/-- C3 counterexample: under the normalized (`seacrowd_text`) schema the
emitter copies the input label verbatim and performs no validation, so a
row labelled `joy` is emitted with a label outside the 7-element set. -/
theorem claim_C3_counterexample :
    generate_examples (config_of "jav" "seacrowd_text" "1.0.0")
        (.single [⟨0, "t", "joy"⟩]) =
      .ok [(0, ⟨"0", "t", "joy"⟩)] ∧
    "joy" ∉ emotion_labels :=
  ⟨rfl, by decide⟩

/-- C1 (corrected): for every single-language configuration and any split
file, emission succeeds and the emitted keys are exactly the CSV file's
own `id` column values in file order.  They form the range 0..N-1 only
when the file's `id` column already is that range; re-indexing happens
only in the aggregate case. -/
theorem claim_C1_amended (lang schema : String)
    (hl : lang ∈ lang_codes)
    (hs : schema = "source" ∨ schema = "seacrowd_text")
    (rows : List CsvRow) :
    generate_examples (config_of lang schema "1.0.0") (.single rows) =
      .ok (emit_rows rows) ∧
    (emit_rows rows).map Prod.fst = rows.map CsvRow.id := by
  refine ⟨?_, emit_rows_fst rows⟩
  rcases hs with hs | hs <;> subst hs <;> fin_cases hl <;> rfl

theorem claim_C1_witness :
    generate_examples (config_of "jav" "source" "1.0.0")
        (.single [⟨5, "a", "happy"⟩]) =
      .ok (emit_rows [⟨5, "a", "happy"⟩]) ∧
    (emit_rows [⟨5, "a", "happy"⟩]).map Prod.fst =
      [(⟨5, "a", "happy"⟩ : CsvRow)].map CsvRow.id :=
  claim_C1_amended "jav" "source" (by decide) (Or.inl rfl) [⟨5, "a", "happy"⟩]

/-- C2 (confirmed): for both aggregate configurations, emission over a
list of parsed files concatenates the files in the given order, discards
each file's original `id` column, and emits keys that are exactly the
contiguous range 0..M-1 (M the total row count), with record `id` the
string of that position and `text`/`label` taken from the concatenated
rows in order. -/
theorem claim_C2 (files : List (List CsvRow)) :
    generate_examples (config_of "" "source" "1.0.0") (.multiple files) =
      .ok (emit_rows (aggregate_df files)) ∧
    generate_examples (config_of "" "seacrowd_text" "1.0.0") (.multiple files) =
      .ok (emit_rows (aggregate_df files)) ∧
    (emit_rows (aggregate_df files)).map Prod.fst =
      (List.range files.flatten.length).map Int.ofNat ∧
    (emit_rows (aggregate_df files)).map (fun p => p.2.id) =
      (List.range files.flatten.length).map (fun n => toString (Int.ofNat n)) ∧
    (emit_rows (aggregate_df files)).map (fun p => (p.2.text, p.2.label)) =
      files.flatten.map (fun r => (r.text, r.label)) := by
  refine ⟨rfl, rfl, ?_, ?_, ?_⟩
  · rw [emit_rows_fst]
    simp only [aggregate_df, List.map_map]
    exact enum_map_fst_comp files.flatten Int.ofNat
  · simp only [emit_rows, aggregate_df, List.map_map]
    exact enum_map_fst_comp files.flatten (fun n => toString (Int.ofNat n))
  · simp only [emit_rows, aggregate_df, List.map_map]
    exact enum_map_snd_comp files.flatten (fun r => (r.text, r.label))

theorem generate_labels (config : SEACrowdConfig) (input : FileInput)
    (result : List (Int × Record))
    (h : generate_examples config input = .ok result) :
    result.map (fun p => p.2.label) = input_labels input := by
  cases input with
  | single rows =>
      unfold generate_examples at h
      split at h
      · exact Except.noConfusion h
      · split at h
        · exact Except.noConfusion h
        · injection h with h
          subst h
          rw [emit_rows_label]
          rfl
  | multiple files =>
      unfold generate_examples at h
      split at h
      · exact Except.noConfusion h
      · split at h
        · injection h with h
          subst h
          rw [emit_rows_label]
          simp only [aggregate_df, List.map_map, input_labels]
          exact enum_map_snd_comp files.flatten CsvRow.label
        · exact Except.noConfusion h

/-- C3 (corrected): the emitter copies each input row's label verbatim;
under the normalized (`seacrowd_text`) schema every emitted `label` lies
in the 7-element set provided every input row's label does.  The emitter
itself performs no label validation. -/
theorem claim_C3_amended (config : SEACrowdConfig) (input : FileInput)
    (result : List (Int × Record))
    (h : generate_examples config input = .ok result)
    (hin : ∀ l ∈ input_labels input, l ∈ emotion_labels) :
    ∀ p ∈ result, p.2.label ∈ emotion_labels := by
  intro p hp
  apply hin
  rw [← generate_labels config input result h]
  exact List.mem_map_of_mem _ hp

theorem claim_C3_witness :
    (⟨"0", "t", "happy"⟩ : Record).label ∈ emotion_labels :=
  claim_C3_amended (config_of "jav" "seacrowd_text" "1.0.0")
    (.single [⟨0, "t", "happy"⟩]) [(0, ⟨"0", "t", "happy"⟩)] rfl
    (by decide) (0, ⟨"0", "t", "happy"⟩) (by decide)

/-- Recognizer for the invalid-config `ValueError` of line 158. -/
def is_invalid_config_error : Except GenError (List (Int × Record)) → Bool
  | .error (.invalidConfig _) => true
  | _ => false

/-- C6 (confirmed): example emission fails with the invalid-config error,
before producing any record, exactly when the active configuration's
schema is neither `source` nor `seacrowd_text`. -/
theorem claim_C6 (config : SEACrowdConfig) (input : FileInput) :
    is_invalid_config_error (generate_examples config input) =
      !(config.schema == "source" || config.schema == "seacrowd_text") := by
  unfold generate_examples
  split
  case isTrue h =>
    obtain ⟨h1, h2⟩ := h
    simp [is_invalid_config_error, h1, h2]
  case isFalse h =>
    have hb : (config.schema == "source" || config.schema == "seacrowd_text") = true := by
      rcases not_and_or.mp h with h | h <;> simp at h <;> simp [h]
    rw [hb]
    split <;> cases input <;> rfl

/-- C7 (confirmed): for every registered language scope, the `source` and
`seacrowd_text` configurations produce identical (key, record) sequences
on any fixed resolved input: the schema variant never alters how `id`,
`text` or `label` are derived. -/
theorem claim_C7 (lang : String) (hl : lang ∈ ("" :: lang_codes))
    (input : FileInput) :
    generate_examples (config_of lang "source" "1.0.0") input =
      generate_examples (config_of lang "seacrowd_text" "1.0.0") input := by
  fin_cases hl <;> cases input <;> rfl

theorem claim_C7_witness :
    generate_examples (config_of "jav" "source" "1.0.0")
        (.single [⟨0, "t", "happy"⟩]) =
      generate_examples (config_of "jav" "seacrowd_text" "1.0.0")
        (.single [⟨0, "t", "happy"⟩]) :=
  claim_C7 "jav" (by decide) (.single [⟨0, "t", "happy"⟩])

/-- C10 (confirmed): every emitted pair satisfies `record.id = str(key)`,
in both the single-language and aggregate branches. -/
theorem claim_C10 (config : SEACrowdConfig) (input : FileInput)
    (result : List (Int × Record))
    (h : generate_examples config input = .ok result) :
    ∀ p ∈ result, p.2.id = toString p.1 := by
  have hemit : ∀ rows : List CsvRow, ∀ p ∈ emit_rows rows, p.2.id = toString p.1 := by
    intro rows p hp
    simp only [emit_rows, List.mem_map] at hp
    obtain ⟨r, _, rfl⟩ := hp
    rfl
  unfold generate_examples at h
  split at h
  · exact Except.noConfusion h
  · split at h <;> cases input <;> try exact Except.noConfusion h
    · injection h with h
      subst h
      exact hemit _
    · injection h with h
      subst h
      exact hemit _

theorem claim_C10_witness :
    ((3 : Int), (⟨"3", "t", "happy"⟩ : Record)).2.id =
      toString ((3 : Int), (⟨"3", "t", "happy"⟩ : Record)).1 :=
  claim_C10 (config_of "jav" "source" "1.0.0") (.single [⟨3, "t", "happy"⟩])
    [(3, ⟨"3", "t", "happy"⟩)] rfl (3, ⟨"3", "t", "happy"⟩) (by decide)

set_option maxRecDepth 40000 in
/-- C8 (confirmed): split resolution fetches, for each of the three
splits, one URL per language in registry order (10 URLs per split) when
the configuration name is one of the two bare aggregate names, and
exactly one URL per split — formatted with the language embedded in the
configuration name — for every registered single-language name. -/
theorem claim_C8 :
    lang_codes.length = 10 ∧
    (∀ name ∈ (["nusaparagraph_emot_source",
                "nusaparagraph_emot_seacrowd_text"] : List String),
      split_generators name = .ok
        [{ split := "train",
           filepath := .many (lang_codes.map fun l =>
             "https://raw.githubusercontent.com/IndoNLP/nusa-writes/main/data/nusa_alinea-emot-"
               ++ l ++ "-train.csv") },
         { split := "validation",
           filepath := .many (lang_codes.map fun l =>
             "https://raw.githubusercontent.com/IndoNLP/nusa-writes/main/data/nusa_alinea-emot-"
               ++ l ++ "-valid.csv") },
         { split := "test",
           filepath := .many (lang_codes.map fun l =>
             "https://raw.githubusercontent.com/IndoNLP/nusa-writes/main/data/nusa_alinea-emot-"
               ++ l ++ "-test.csv") }]) ∧
    (∀ lang ∈ lang_codes, ∀ schema ∈ (["source", "seacrowd_text"] : List String),
      split_generators ("nusaparagraph_emot_" ++ lang ++ "_" ++ schema) = .ok
        [{ split := "train",
           filepath := .one
             ("https://raw.githubusercontent.com/IndoNLP/nusa-writes/main/data/nusa_alinea-emot-"
               ++ lang ++ "-train.csv") },
         { split := "validation",
           filepath := .one
             ("https://raw.githubusercontent.com/IndoNLP/nusa-writes/main/data/nusa_alinea-emot-"
               ++ lang ++ "-valid.csv") },
         { split := "test",
           filepath := .one
             ("https://raw.githubusercontent.com/IndoNLP/nusa-writes/main/data/nusa_alinea-emot-"
               ++ lang ++ "-test.csv") }]) := by
  refine ⟨rfl, by decide, by decide⟩

theorem claim_C8_witness :
    split_generators "nusaparagraph_emot_source" = .ok
      [{ split := "train",
         filepath := .many (lang_codes.map fun l =>
           "https://raw.githubusercontent.com/IndoNLP/nusa-writes/main/data/nusa_alinea-emot-"
             ++ l ++ "-train.csv") },
       { split := "validation",
         filepath := .many (lang_codes.map fun l =>
           "https://raw.githubusercontent.com/IndoNLP/nusa-writes/main/data/nusa_alinea-emot-"
             ++ l ++ "-valid.csv") },
       { split := "test",
         filepath := .many (lang_codes.map fun l =>
           "https://raw.githubusercontent.com/IndoNLP/nusa-writes/main/data/nusa_alinea-emot-"
             ++ l ++ "-test.csv") }] ∧
    split_generators ("nusaparagraph_emot_" ++ "jav" ++ "_" ++ "source") = .ok
      [{ split := "train",
         filepath := .one
           ("https://raw.githubusercontent.com/IndoNLP/nusa-writes/main/data/nusa_alinea-emot-"
             ++ "jav" ++ "-train.csv") },
       { split := "validation",
         filepath := .one
           ("https://raw.githubusercontent.com/IndoNLP/nusa-writes/main/data/nusa_alinea-emot-"
             ++ "jav" ++ "-valid.csv") },
       { split := "test",
         filepath := .one
           ("https://raw.githubusercontent.com/IndoNLP/nusa-writes/main/data/nusa_alinea-emot-"
             ++ "jav" ++ "-test.csv") }] :=
  ⟨claim_C8.2.1 "nusaparagraph_emot_source" (by decide),
   claim_C8.2.2 "jav" (by decide) "source" (by decide)⟩
